import Mathlib

/-!
Verification of the card-study application's deck tracker, animation
controller, card stack and compositor against their specification.

The JavaScript source is embedded shallowly: JS numbers that stay integral
(deck indices, the cursor, layer counts) become `Int`/`Nat`, fractional
arithmetic (animation progress, brightness, offsets) becomes `ℚ`, the
cookie store becomes an explicit `Option` field threaded through the
state, and `Math.random()` draws become explicit `ℚ` arguments.
-/

/-- Mirror of the global `CONFIG` object (the fields the verified
components read). -/
structure Config where
  maxStackCards : Int
  stackRotationRange : ℚ
  stackOffsetRange : ℚ
  stackDarkenPerLayer : ℚ

/-- The `CONFIG` values of the modular variant (`stackDarkenPerLayer: 0.15`). -/
def CONFIG : Config :=
  { maxStackCards := 5
    stackRotationRange := 10
    stackOffsetRange := 60
    stackDarkenPerLayer := 15/100 }

/-- The `CONFIG` values of the monolithic `app.js` variant
(`stackDarkenPerLayer: 0.25`). -/
def CONFIG_APP : Config :=
  { CONFIG with stackDarkenPerLayer := 25/100 }

/-- The destructuring swap `[array[i], array[j]] = [array[j], array[i]]`:
when both indexes are in range, write the old `array[j]` at `i` and the
old `array[i]` at `j`; otherwise leave the list unchanged. -/
def listSwap (l : List Nat) (i j : Nat) : List Nat :=
  match l[i]?, l[j]? with
  | some a, some b => (l.set i b).set j a
  | _, _ => l

/-- The loop body of `Utils.fisherYatesShuffle`, iterating the loop index
`i` downward; at loop index `i` the swap partner is
`j = Math.floor(random * (i + 1))`, with the draw `rand i ∈ [0,1)`. -/
def fyAux (rand : Nat → ℚ) : Nat → List Nat → List Nat
  | 0, l => l
  | k + 1, l =>
      let j := (Rat.floor (rand (k + 1) * ((k : ℚ) + 2))).toNat
      fyAux rand k (listSwap l (k + 1) j)

/-- Model of `Utils.fisherYatesShuffle`: iterate `i` from `array.length - 1` down
to `1`, swapping with a randomly drawn partner. -/
def fisherYatesShuffle (rand : Nat → ℚ) (l : List Nat) : List Nat :=
  fyAux rand (l.length - 1) l

/-- The persisted state blob `{ indices, current }`. -/
structure Snapshot where
  indices : List Nat
  current : Int

/-- A cookie value as seen by `StateManager.load`: either a string that
parses to a usable snapshot, or one on which parsing/validation throws. -/
inductive CookieVal where
  | good : Snapshot → CookieVal
  | bad : CookieVal

/-- The `StateManager` instance fields together with the cookie store it
reads and writes (`document.cookie`, modelled as one optional value). -/
structure StateManager where
  totalCards : Nat
  shuffledIndices : List Nat
  currentCardIndex : Int
  cookie : Option CookieVal

/-- Model of `StateManager.save()`: write `{ indices, current }` to the cookie. -/
def StateManager.save (s : StateManager) : StateManager :=
  { s with cookie := some (.good ⟨s.shuffledIndices, s.currentCardIndex⟩) }

/-- Model of `StateManager.reset()`: rebuild `[0 .. totalCards)`, shuffle it,
zero the cursor and persist. -/
def StateManager.reset (rand : Nat → ℚ) (s : StateManager) : StateManager :=
  StateManager.save
    { s with shuffledIndices := fisherYatesShuffle rand (List.range s.totalCards)
             currentCardIndex := 0 }

/-- Model of `StateManager.load()`: adopt the stored snapshot, but fall back to
`reset()` when the cookie is absent, fails to parse, or the adopted
permutation's length differs from the deck size. -/
def StateManager.load (rand : Nat → ℚ) (s : StateManager) : StateManager :=
  match s.cookie with
  | none => s.reset rand
  | some .bad => s.reset rand
  | some (.good snap) =>
      let s' := { s with shuffledIndices := snap.indices
                         currentCardIndex := snap.current }
      if snap.indices.length ≠ s.totalCards then s'.reset rand else s'

/-- Model of `StateManager.advance()`: increment the cursor; report `false` at the
end of the deck (without saving), otherwise persist and report `true`. -/
def StateManager.advance (s : StateManager) : Bool × StateManager :=
  let s' := { s with currentCardIndex := s.currentCardIndex + 1 }
  if s'.currentCardIndex ≥ (s'.shuffledIndices.length : Int) then (false, s')
  else (true, s'.save)

/-- Runs `n` successive `advance()` calls, collecting the returned flags. -/
def StateManager.advanceCalls : Nat → StateManager → List Bool × StateManager
  | 0, s => ([], s)
  | n + 1, s =>
      let r := s.advance
      let rest := StateManager.advanceCalls n r.2
      (r.1 :: rest.1, rest.2)

/-- JavaScript array read `l[i]` with a possibly out-of-range or negative
index: `undefined` becomes `none`. -/
def listGetInt (l : List Nat) (i : Int) : Option Nat :=
  if 0 ≤ i then l[i.toNat]? else none

/-- Model of `StateManager.getCurrentCardPath(cards)`:
`cards[shuffledIndices[currentCardIndex]]`, `undefined` as `none`. -/
def StateManager.getCurrentCardPath (s : StateManager) (cards : List String) :
    Option String :=
  match listGetInt s.shuffledIndices s.currentCardIndex with
  | some j => cards[j]?
  | none => none

/-- Model of `Utils.easeOutCubic`: `1 - Math.pow(1 - t, 3)`. -/
def easeOutCubic (t : ℚ) : ℚ :=
  1 - (1 - t) ^ 3

/-- The per-draw values a transform query hands to the renderer. -/
structure Transform where
  offsetX : ℚ
  offsetY : ℚ
  rotation : ℚ
  opacity : ℚ
  darken : ℚ

/-- The `AnimationController` fields read by the transform queries. -/
structure AnimationController where
  progress : ℚ
  throwDirection : ℚ × ℚ
  throwRotation : ℚ
  settleFromRotation : ℚ
  settleFromOffset : ℚ × ℚ

/-- Model of `AnimationController.getThrowTransform(cssWidth, cssHeight)`. -/
def AnimationController.getThrowTransform (a : AnimationController)
    (cssWidth cssHeight : ℚ) : Transform :=
  let eased := easeOutCubic a.progress
  { offsetX := a.throwDirection.1 * eased
    offsetY := a.throwDirection.2 * eased
    rotation := a.throwRotation * eased
    opacity := 1 - a.progress
    darken := 1 }

/-- Model of `AnimationController.getSettleTransform(cssWidth, cssHeight)`; the
stored pixel offset is normalized against the CSS viewport passed in at
render time. -/
def AnimationController.getSettleTransform (cfg : Config)
    (a : AnimationController) (cssWidth cssHeight : ℚ) : Transform :=
  let eased := easeOutCubic a.progress
  let pixelOffsetX := a.settleFromOffset.1 * (1 - eased)
  let pixelOffsetY := a.settleFromOffset.2 * (1 - eased)
  let initialDarken := 1 - cfg.stackDarkenPerLayer
  { offsetX := (pixelOffsetX / cssWidth) * 2
    offsetY := (pixelOffsetY / cssHeight) * 2
    rotation := a.settleFromRotation * (1 - eased)
    opacity := 1
    darken := initialDarken + (1 - initialDarken) * eased }

/-- The rotation sampled for a fresh stack entry:
`(Math.random() - 0.5) * CONFIG.stackRotationRange` with draw `r`. -/
def stackRotationSample (cfg : Config) (r : ℚ) : ℚ :=
  (r - 1/2) * cfg.stackRotationRange

/-- One offset axis sampled for a fresh stack entry in `CardStack.add`:
`(Math.random() - 0.5) * CONFIG.stackOffsetRange` with draw `r`. -/
def stackOffsetSample (cfg : Config) (r : ℚ) : ℚ :=
  (r - 1/2) * cfg.stackOffsetRange

/-- One offset axis sampled in `app.js` (`loadCurrentCards` /
`loadNextStackCard`): the `CardStack.add` sample scaled by
`screenRatio = Math.min(innerWidth / 1920, innerHeight / 1080)`. -/
def appStackOffsetSample (cfg : Config) (r w h : ℚ) : ℚ :=
  (r - 1/2) * cfg.stackOffsetRange * min (w / 1920) (h / 1080)

/-- The `CardStack` parallel arrays; texture handles are opaque `Nat`s. -/
structure CardStack where
  textures : List Nat
  rotations : List ℚ
  offsets : List (ℚ × ℚ)
  oldDarkenFactors : List (Option ℚ)

/-- Model of `CardStack.add(texture)` with its three random draws made explicit:
push the handle, a fresh rotation, a fresh per-axis offset, and a `null`
prior-brightness marker. -/
def CardStack.add (cfg : Config) (r1 r2 r3 : ℚ) (t : Nat) (cs : CardStack) :
    CardStack :=
  { textures := cs.textures ++ [t]
    rotations := cs.rotations ++ [stackRotationSample cfg r1]
    offsets := cs.offsets ++ [(stackOffsetSample cfg r2, stackOffsetSample cfg r3)]
    oldDarkenFactors := cs.oldDarkenFactors ++ [none] }

/-- Model of `CardStack.saveOldDarkenFactors(remainingCards)`: snapshot each
entry's pre-shift brightness `1 - (stackSize - i) * stackDarkenPerLayer`
with `stackSize = min(maxStackCards, remainingCards - 1)`. -/
def CardStack.saveOldDarkenFactors (cfg : Config) (remainingCards : Int)
    (cs : CardStack) : CardStack :=
  let stackSize : Int := min cfg.maxStackCards (remainingCards - 1)
  { cs with
    oldDarkenFactors := cs.textures.mapIdx fun i _ =>
      some (1 - ((stackSize - (i : Int) : Int) : ℚ) * cfg.stackDarkenPerLayer) }

/-- The stack size computed at the top of `render()`:
`Math.min(CONFIG.maxStackCards, remaining - 1)`. -/
def renderStackSize (cfg : Config) (remaining : Int) : Int :=
  min cfg.maxStackCards (remaining - 1)

/-- The visibility computation of `renderStackCard` / `render`: opacity
starts at `1.0` and drops to `0.0` for a card whose position
`stackSize - index` reaches `remaining - 1`, once `remaining` is at most
`maxStackCards`. -/
def renderStackCardOpacity (cfg : Config) (remaining stackSize index : Int) : ℚ :=
  if remaining ≤ cfg.maxStackCards then
    if stackSize - index ≥ remaining - 1 then 0 else 1
  else 1

/-- A degenerate random stream that always draws `0`. -/
def rZero : Nat → ℚ := fun _ => 0

/-- A fresh three-card tracker with no cookie. -/
def smInit3 : StateManager := ⟨3, [], 0, none⟩

/-- A two-card tracker at cursor `0`. -/
def smTwo : StateManager := ⟨2, [1, 0], 0, none⟩

/-- A three-card tracker mid-pass, about to be saved. -/
def smRound : StateManager := ⟨3, [2, 0, 1], 1, none⟩

/-- A three-card tracker whose cookie holds a valid-length snapshot. -/
def smGoodCookie : StateManager := ⟨3, [], 0, some (.good ⟨[2, 0, 1], 1⟩)⟩

/-- A one-card tracker at its last card, with its own snapshot stored. -/
def smAtEnd : StateManager := ⟨1, [0], 0, some (.good ⟨[0], 0⟩)⟩

/-- A cookie with a length-3 permutation but cursor `7`, past the deck. -/
def smCursorSeven : StateManager := ⟨3, [], 0, some (.good ⟨[2, 0, 1], 7⟩)⟩

/-- A cookie with a length-3 permutation but negative cursor `-2`. -/
def smCursorNeg : StateManager := ⟨3, [], 0, some (.good ⟨[2, 0, 1], -2⟩)⟩

/-- A controller frozen mid-animation at progress `1/2`. -/
def acHalf : AnimationController :=
  { progress := 1/2
    throwDirection := (2, 3)
    throwRotation := 90
    settleFromRotation := 4
    settleFromOffset := (10, 20) }

/-- A three-entry card stack (texture handles `7, 8, 9`). -/
def csThree : CardStack :=
  { textures := [7, 8, 9]
    rotations := [0, 0, 0]
    offsets := [(0, 0), (0, 0), (0, 0)]
    oldDarkenFactors := [none, none, none] }

-- ==================== helper lemmas ====================

/-- Pulling a known element out of a `set`: if `xs` holds `b` at `m`,
then `b :: xs.set m x` is a permutation of `x :: xs`. -/
theorem cons_set_perm : ∀ (xs : List Nat) (m : Nat) (b x : Nat),
    xs[m]? = some b → (b :: xs.set m x).Perm (x :: xs) := by
  intro xs
  induction xs with
  | nil => intro m b x h; simp at h
  | cons y t ih =>
    intro m b x h
    cases m with
    | zero =>
      simp only [List.getElem?_cons_zero, Option.some.injEq] at h
      subst h
      simpa using List.Perm.swap x y t
    | succ k =>
      simp only [List.getElem?_cons_succ] at h
      have step := ih k b x h
      show (b :: y :: t.set k x).Perm (x :: y :: t)
      exact ((List.Perm.swap y b _).trans (List.Perm.cons y step)).trans
        (List.Perm.swap x y t)

/-- A `listSwap` never changes the multiset of elements. -/
theorem listSwap_perm : ∀ (l : List Nat) (i j : Nat), (listSwap l i j).Perm l := by
  intro l
  induction l with
  | nil => intro i j; simp [listSwap]
  | cons y t ih =>
    intro i j
    cases i with
    | zero =>
      cases j with
      | zero =>
        simp [listSwap]
      | succ k =>
        unfold listSwap
        cases hk : t[k]? with
        | none => simp [hk]
        | some b =>
          simp only [List.getElem?_cons_zero, List.getElem?_cons_succ, hk,
            List.set_cons_zero, List.set_cons_succ]
          exact cons_set_perm t k b y hk
    | succ m =>
      cases j with
      | zero =>
        unfold listSwap
        cases hm : t[m]? with
        | none => simp [hm]
        | some a =>
          simp only [List.getElem?_cons_zero, List.getElem?_cons_succ, hm,
            List.set_cons_zero, List.set_cons_succ]
          exact cons_set_perm t m a y hm
      | succ k =>
        unfold listSwap
        cases hm : t[m]? with
        | none => simp [hm]
        | some a =>
          cases hk : t[k]? with
          | none => simp [hm, hk]
          | some b =>
            simp only [List.getElem?_cons_succ, hm, hk, List.set_cons_succ]
            have h2 := ih m k
            unfold listSwap at h2
            rw [hm, hk] at h2
            exact List.Perm.cons y h2

/-- The whole shuffle loop never changes the multiset of elements. -/
theorem fyAux_perm (rand : Nat → ℚ) : ∀ (n : Nat) (l : List Nat),
    (fyAux rand n l).Perm l := by
  intro n
  induction n with
  | zero => intro l; simp [fyAux]
  | succ k ih =>
    intro l
    exact (ih _).trans (listSwap_perm l (k + 1) _)

/-- The function `fisherYatesShuffle` returns a permutation of its input. -/
theorem fisherYatesShuffle_perm (rand : Nat → ℚ) (l : List Nat) :
    (fisherYatesShuffle rand l).Perm l :=
  fyAux_perm rand (l.length - 1) l

/-- Saving touches only the cookie. -/
theorem save_fields (s : StateManager) :
    (s.save).shuffledIndices = s.shuffledIndices
    ∧ (s.save).currentCardIndex = s.currentCardIndex
    ∧ (s.save).totalCards = s.totalCards
    ∧ (s.save).cookie = some (.good ⟨s.shuffledIndices, s.currentCardIndex⟩) :=
  ⟨rfl, rfl, rfl, rfl⟩

/-- Unfolding `load` on a parsable cookie. -/
theorem load_good_eq (rand : Nat → ℚ) (s : StateManager) (snap : Snapshot)
    (h : s.cookie = some (.good snap)) :
    s.load rand = if snap.indices.length ≠ s.totalCards
      then StateManager.reset rand
        { s with shuffledIndices := snap.indices, currentCardIndex := snap.current }
      else { s with shuffledIndices := snap.indices,
                    currentCardIndex := snap.current } := by
  rw [StateManager.load, h]

/-- The outcome of a run of `m ≥ 1` `advance()` calls that starts exactly
`m` cards before the end of the deck: `m - 1` successes then one
completion signal. -/
theorem advance_trace_aux (m : Nat) : ∀ s : StateManager, 1 ≤ m →
    (s.shuffledIndices.length : Int) = s.currentCardIndex + m →
    (StateManager.advanceCalls m s).1 = List.replicate (m - 1) true ++ [false] := by
  induction m with
  | zero => intro s h _; omega
  | succ k ih =>
    intro s _ hlen
    cases k with
    | zero =>
      have hcond : s.currentCardIndex + 1 ≥ (s.shuffledIndices.length : Int) := by
        push_cast at hlen; omega
      simp [StateManager.advanceCalls, StateManager.advance, hcond]
    | succ j =>
      have hcond : ¬ (s.currentCardIndex + 1 ≥ (s.shuffledIndices.length : Int)) := by
        push_cast at hlen ⊢; omega
      have h1 : s.advance = (true,
          ({ s with currentCardIndex := s.currentCardIndex + 1 } : StateManager).save) := by
        simp [StateManager.advance, hcond]
      have hrec := ih ({ s with currentCardIndex := s.currentCardIndex + 1 }
          : StateManager).save (by omega) (by
        simp only [StateManager.save]
        push_cast at hlen ⊢
        omega)
      have hstep : (StateManager.advanceCalls (j + 1 + 1) s).1
          = s.advance.1 :: (StateManager.advanceCalls (j + 1) s.advance.2).1 := rfl
      simp only [hstep, h1]
      rw [hrec]
      simp [List.replicate_succ]

-- ==================== claim theorems ====================

/-- Claim C1: for every deck size `N > 0` and every sequence of random
draws taken by the shuffle loop, `reset()` produces `shuffledIndices`
that is a permutation of exactly `[0, N)` — length `N`, no duplicates,
no omitted index — and sets `currentCardIndex` to `0`. -/
theorem reset_produces_fresh_permutation (N : Nat) (hN : 0 < N)
    (rand : Nat → ℚ) (hr : ∀ i, 0 ≤ rand i ∧ rand i < 1)
    (s : StateManager) (htot : s.totalCards = N) :
    (s.reset rand).shuffledIndices.Perm (List.range N)
    ∧ (s.reset rand).shuffledIndices.length = N
    ∧ (s.reset rand).shuffledIndices.Nodup
    ∧ (∀ k, k < N → k ∈ (s.reset rand).shuffledIndices)
    ∧ (s.reset rand).currentCardIndex = 0 := by
  have hperm : (s.reset rand).shuffledIndices.Perm (List.range N) := by
    simp only [StateManager.reset, StateManager.save, htot]
    exact fisherYatesShuffle_perm rand (List.range N)
  refine ⟨hperm, ?_, ?_, ?_, rfl⟩
  · rw [hperm.length_eq, List.length_range]
  · exact hperm.symm.nodup (List.nodup_range N)
  · exact fun k hk => hperm.symm.subset (List.mem_range.mpr hk)

/-- Concrete instance of C1 at `N = 3` with the all-zero draw stream. -/
theorem reset_produces_fresh_permutation_witness :
    (0 < 3 ∧ (∀ i, 0 ≤ rZero i ∧ rZero i < 1) ∧ smInit3.totalCards = 3)
    ∧ (smInit3.reset rZero).shuffledIndices.Perm (List.range 3)
    ∧ (smInit3.reset rZero).currentCardIndex = 0 := by
  have hr : ∀ i, 0 ≤ rZero i ∧ rZero i < 1 := fun i => ⟨le_refl 0, by norm_num [rZero]⟩
  have h := reset_produces_fresh_permutation 3 (by decide) rZero hr smInit3 rfl
  exact ⟨⟨by decide, hr, rfl⟩, h.1, h.2.2.2.2⟩

/-- Claim C2: starting from cursor `0` with deck size `N`, `N` successive
`advance()` calls return `true` for the first `N - 1` calls and `false`
on the `N`-th; every call that returns `true` writes the (incremented)
snapshot to the persistent store. -/
theorem advance_sequence_completion (N : Nat) (hN : 0 < N) (s : StateManager)
    (h0 : s.currentCardIndex = 0) (hlen : s.shuffledIndices.length = N) :
    (StateManager.advanceCalls N s).1 = List.replicate (N - 1) true ++ [false]
    ∧ ∀ t : StateManager, (t.advance).1 = true →
        (t.advance).2.cookie
          = some (.good ⟨t.shuffledIndices, t.currentCardIndex + 1⟩) := by
  constructor
  · exact advance_trace_aux N s hN (by rw [hlen, h0]; ring)
  · intro t ht
    by_cases hc : t.currentCardIndex + 1 ≥ (t.shuffledIndices.length : Int)
    · simp [StateManager.advance, hc] at ht
    · simp [StateManager.advance, hc, StateManager.save]

/-- Concrete instance of C2 at `N = 2`. -/
theorem advance_sequence_completion_witness :
    (0 < 2 ∧ smTwo.currentCardIndex = 0 ∧ smTwo.shuffledIndices.length = 2)
    ∧ (StateManager.advanceCalls 2 smTwo).1 = List.replicate (2 - 1) true ++ [false] :=
  ⟨⟨by decide, rfl, rfl⟩,
   (advance_sequence_completion 2 (by decide) smTwo rfl rfl).1⟩

/-- Claim C3: `load()` falls back to `reset()` — a fresh shuffle with
cursor `0` — when the cookie is absent, unparsable, or its indices array
has a length different from the deck size; when the length matches, it
adopts the snapshot's permutation and cursor. -/
theorem load_rejects_invalid_snapshot (rand : Nat → ℚ) (s : StateManager) :
    ((s.cookie = none ∨ s.cookie = some .bad ∨
        ∃ snap, s.cookie = some (.good snap) ∧ snap.indices.length ≠ s.totalCards) →
      (s.load rand).shuffledIndices = fisherYatesShuffle rand (List.range s.totalCards)
      ∧ (s.load rand).shuffledIndices.Perm (List.range s.totalCards)
      ∧ (s.load rand).currentCardIndex = 0)
    ∧ (∀ snap, s.cookie = some (.good snap) → snap.indices.length = s.totalCards →
      (s.load rand).shuffledIndices = snap.indices
      ∧ (s.load rand).currentCardIndex = snap.current) := by
  constructor
  · rintro (hnone | hbad | ⟨snap, hgood, hne⟩)
    · rw [StateManager.load, hnone]
      exact ⟨rfl, fisherYatesShuffle_perm rand _, rfl⟩
    · rw [StateManager.load, hbad]
      exact ⟨rfl, fisherYatesShuffle_perm rand _, rfl⟩
    · rw [load_good_eq rand s snap hgood, if_pos hne]
      exact ⟨rfl, fisherYatesShuffle_perm rand _, rfl⟩
  · intro snap hgood hlen
    rw [load_good_eq rand s snap hgood, if_neg (fun hne => hne hlen)]
    exact ⟨rfl, rfl⟩

/-- Concrete instances of C3: a missing cookie resets the cursor, a
matching-length snapshot is adopted verbatim. -/
theorem load_rejects_invalid_snapshot_witness :
    (smInit3.load rZero).currentCardIndex = 0
    ∧ (smGoodCookie.load rZero).shuffledIndices = [2, 0, 1] :=
  ⟨((load_rejects_invalid_snapshot rZero smInit3).1 (Or.inl rfl)).2.2,
   ((load_rejects_invalid_snapshot rZero smGoodCookie).2 ⟨[2, 0, 1], 1⟩ rfl rfl).1⟩

/-- Claim C4: for every state whose permutation length equals the deck
size, `save()` followed by `load()` with no intervening store writes
restores the identical permutation and cursor. -/
theorem save_load_roundtrip (rand : Nat → ℚ) (s : StateManager)
    (hlen : s.shuffledIndices.length = s.totalCards) :
    ((s.save).load rand).shuffledIndices = s.shuffledIndices
    ∧ ((s.save).load rand).currentCardIndex = s.currentCardIndex := by
  rw [StateManager.load]
  simp [StateManager.save, hlen]

/-- Concrete instance of C4 on a mid-pass three-card state. -/
theorem save_load_roundtrip_witness :
    (smRound.shuffledIndices.length = smRound.totalCards)
    ∧ ((smRound.save).load rZero).shuffledIndices = smRound.shuffledIndices
    ∧ ((smRound.save).load rZero).currentCardIndex = smRound.currentCardIndex :=
  ⟨rfl, (save_load_roundtrip rZero smRound rfl).1,
   (save_load_roundtrip rZero smRound rfl).2⟩

/-- Claim C9: when `advance()` returns `false` (the incremented cursor
reached the deck size), it performs no save: the stored snapshot — still
holding the pre-advance cursor — is untouched, while the in-memory
cursor has moved to `N`. -/
theorem advance_false_skips_save (s : StateManager)
    (hend : s.currentCardIndex + 1 = (s.shuffledIndices.length : Int))
    (hstore : s.cookie = some (.good ⟨s.shuffledIndices, s.currentCardIndex⟩)) :
    (s.advance).1 = false
    ∧ (s.advance).2.cookie = s.cookie
    ∧ (s.advance).2.cookie = some (.good ⟨s.shuffledIndices, s.currentCardIndex⟩)
    ∧ (s.advance).2.currentCardIndex = (s.shuffledIndices.length : Int) := by
  have hc : s.currentCardIndex + 1 ≥ (s.shuffledIndices.length : Int) := by omega
  refine ⟨?_, ?_, ?_, ?_⟩ <;> simp [StateManager.advance, hc, hstore, hend]

/-- Concrete instance of C9 on a one-card deck at its last card. -/
theorem advance_false_skips_save_witness :
    (smAtEnd.advance).1 = false
    ∧ (smAtEnd.advance).2.cookie = smAtEnd.cookie
    ∧ (smAtEnd.advance).2.currentCardIndex = 1 :=
  ⟨(advance_false_skips_save smAtEnd (by decide) rfl).1,
   (advance_false_skips_save smAtEnd (by decide) rfl).2.1,
   (advance_false_skips_save smAtEnd (by decide) rfl).2.2.2⟩

/-- Claim C10: `load()` validates only the permutation length: any
snapshot whose indices array has length exactly `N` is adopted with any
cursor value, even one past the deck or negative, so `load()` alone does
not restore `cursor ∈ [0, N]` and a following `getCurrentCardPath` can
miss the array (return `undefined`). -/
theorem load_ignores_cursor (rand : Nat → ℚ) (s : StateManager) (snap : Snapshot)
    (hc : s.cookie = some (.good snap)) (hlen : snap.indices.length = s.totalCards) :
    ((s.load rand).currentCardIndex = snap.current
      ∧ (s.load rand).shuffledIndices = snap.indices)
    ∧ ((smCursorSeven.load rand).currentCardIndex = 7
      ∧ ¬ ((smCursorSeven.load rand).currentCardIndex ≤ (smCursorSeven.totalCards : Int))
      ∧ (smCursorSeven.load rand).getCurrentCardPath ["a", "b", "c"] = none)
    ∧ ((smCursorNeg.load rand).currentCardIndex = -2
      ∧ (smCursorNeg.load rand).getCurrentCardPath ["a", "b", "c"] = none) := by
  refine ⟨?_, ⟨rfl, ?_, rfl⟩, ⟨rfl, rfl⟩⟩
  · rw [load_good_eq rand s snap hc, if_neg (fun hne => hne hlen)]
    exact ⟨rfl, rfl⟩
  · rw [show (smCursorSeven.load rand).currentCardIndex = (7 : Int) from rfl]
    rw [show ((smCursorSeven.totalCards : Nat) : Int) = 3 from rfl]
    decide

/-- Concrete instance of C10: the out-of-range cursor `7` is adopted for
a three-card deck. -/
theorem load_ignores_cursor_witness :
    (smCursorSeven.cookie = some (.good ⟨[2, 0, 1], 7⟩)
      ∧ ([2, 0, 1] : List Nat).length = smCursorSeven.totalCards)
    ∧ (smCursorSeven.load rZero).currentCardIndex = 7 :=
  ⟨⟨rfl, rfl⟩,
   (load_ignores_cursor rZero smCursorSeven ⟨[2, 0, 1], 7⟩ rfl rfl).1.1⟩

/-- Claim C5: for progress `p ∈ [0,1]` with `eased = 1 - (1-p)^3`, the
throw phase renders the current card at offset `direction * eased`,
rotation `throwRotation * eased`, opacity `1 - p` (linear, not eased)
and full brightness; the settle phase renders it at offset
`settleFromOffset * (1 - eased)` normalized by the live viewport,
rotation `settleFromRotation * (1 - eased)`, opacity `1`, and brightness
`(1 - perLayerDarken) + perLayerDarken * eased`. -/
theorem interpolation_law (cfg : Config) (a : AnimationController) (w h : ℚ)
    (hp0 : 0 ≤ a.progress) (hp1 : a.progress ≤ 1) :
    ((a.getThrowTransform w h).offsetX
        = a.throwDirection.1 * (1 - (1 - a.progress) ^ 3)
      ∧ (a.getThrowTransform w h).offsetY
        = a.throwDirection.2 * (1 - (1 - a.progress) ^ 3)
      ∧ (a.getThrowTransform w h).rotation
        = a.throwRotation * (1 - (1 - a.progress) ^ 3)
      ∧ (a.getThrowTransform w h).opacity = 1 - a.progress
      ∧ (a.getThrowTransform w h).darken = 1)
    ∧ ((a.getSettleTransform cfg w h).offsetX
        = a.settleFromOffset.1 * (1 - (1 - (1 - a.progress) ^ 3)) / w * 2
      ∧ (a.getSettleTransform cfg w h).offsetY
        = a.settleFromOffset.2 * (1 - (1 - (1 - a.progress) ^ 3)) / h * 2
      ∧ (a.getSettleTransform cfg w h).rotation
        = a.settleFromRotation * (1 - (1 - (1 - a.progress) ^ 3))
      ∧ (a.getSettleTransform cfg w h).opacity = 1
      ∧ (a.getSettleTransform cfg w h).darken
        = (1 - cfg.stackDarkenPerLayer)
          + cfg.stackDarkenPerLayer * (1 - (1 - a.progress) ^ 3)) := by
  refine ⟨⟨rfl, rfl, rfl, rfl, rfl⟩, ⟨rfl, rfl, rfl, rfl, ?_⟩⟩
  show (1 - cfg.stackDarkenPerLayer)
      + (1 - (1 - cfg.stackDarkenPerLayer)) * (1 - (1 - a.progress) ^ 3)
    = (1 - cfg.stackDarkenPerLayer)
      + cfg.stackDarkenPerLayer * (1 - (1 - a.progress) ^ 3)
  ring

/-- Concrete instance of C5 at progress `1/2` on a 1920 by 1080 viewport. -/
theorem interpolation_law_witness :
    (0 ≤ acHalf.progress ∧ acHalf.progress ≤ 1)
    ∧ (acHalf.getThrowTransform 1920 1080).opacity = 1 - acHalf.progress
    ∧ (acHalf.getSettleTransform CONFIG 1920 1080).darken
      = (1 - CONFIG.stackDarkenPerLayer)
        + CONFIG.stackDarkenPerLayer * (1 - (1 - acHalf.progress) ^ 3) :=
  ⟨⟨by norm_num [acHalf], by norm_num [acHalf]⟩,
   (interpolation_law CONFIG acHalf 1920 1080 (by norm_num [acHalf])
      (by norm_num [acHalf])).1.2.2.2.1,
   (interpolation_law CONFIG acHalf 1920 1080 (by norm_num [acHalf])
      (by norm_num [acHalf])).2.2.2.2.2⟩

/-- Counterexample to claim C6 as stated: in `app.js` the per-axis stack
offset is scaled by `screenRatio = min(w / 1920, h / 1080)`, which is not
capped at `1`; on a 3840 by 2160 viewport the valid draw `0.99` yields an
offset of `58.8` pixels, outside `[-30, +30]`. -/
theorem stack_offset_exceeds_claimed_bound :
    (0 ≤ (99/100 : ℚ) ∧ (99/100 : ℚ) < 1)
    ∧ ¬ (appStackOffsetSample CONFIG (99/100) 3840 2160 ≤ 30) := by
  refine ⟨⟨by norm_num, by norm_num⟩, ?_⟩
  unfold appStackOffsetSample
  rw [show ((3840:ℚ)/1920) = 2 from by norm_num,
    show ((2160:ℚ)/1080) = 2 from by norm_num, min_self]
  norm_num [CONFIG]

/-- Claim C6 amended: for every draw `r ∈ [0,1)` the sampled rotation
lies in `[-5, +5]` degrees and the `CardStack.add` offset components lie
in `[-30, +30]` pixels; the `app.js` offset components lie in the scaled
interval `[-30 * screenRatio, +30 * screenRatio]` with
`screenRatio = min(w / 1920, h / 1080)` — hence within `[-30, +30]` only
when the screen ratio is at most `1`. -/
theorem stack_entry_bounds_amended (r w h : ℚ) (hr0 : 0 ≤ r) (hr1 : r < 1)
    (hw : 0 < w) (hh : 0 < h) :
    (-5 ≤ stackRotationSample CONFIG r ∧ stackRotationSample CONFIG r ≤ 5)
    ∧ (-30 ≤ stackOffsetSample CONFIG r ∧ stackOffsetSample CONFIG r ≤ 30)
    ∧ (-(30 * min (w / 1920) (h / 1080)) ≤ appStackOffsetSample CONFIG r w h
      ∧ appStackOffsetSample CONFIG r w h ≤ 30 * min (w / 1920) (h / 1080)) := by
  have hm : (0:ℚ) ≤ min (w / 1920) (h / 1080) :=
    le_min (by positivity) (by positivity)
  have h1 : stackRotationSample CONFIG r = (r - 1/2) * 10 := rfl
  have h2 : stackOffsetSample CONFIG r = (r - 1/2) * 60 := rfl
  have h3 : appStackOffsetSample CONFIG r w h
      = (r - 1/2) * 60 * min (w / 1920) (h / 1080) := rfl
  refine ⟨⟨?_, ?_⟩, ⟨?_, ?_⟩, ⟨?_, ?_⟩⟩
  · rw [h1]; linarith
  · rw [h1]; linarith
  · rw [h2]; linarith
  · rw [h2]; linarith
  · rw [h3]; nlinarith [mul_nonneg hr0 hm, hm]
  · rw [h3]; nlinarith [mul_nonneg hm (by linarith : (0:ℚ) ≤ 1 - r), hm]

/-- Concrete instance of the amended C6 at draw `3/4` on a 1920 by 1080
viewport. -/
theorem stack_entry_bounds_amended_witness :
    (0 ≤ (3/4 : ℚ) ∧ (3/4 : ℚ) < 1 ∧ (0:ℚ) < 1920 ∧ (0:ℚ) < 1080)
    ∧ stackRotationSample CONFIG (3/4) ≤ 5
    ∧ stackOffsetSample CONFIG (3/4) ≤ 30 :=
  ⟨⟨by norm_num, by norm_num, by norm_num, by norm_num⟩,
   (stack_entry_bounds_amended (3/4) 1920 1080 (by norm_num) (by norm_num)
      (by norm_num) (by norm_num)).1.2,
   (stack_entry_bounds_amended (3/4) 1920 1080 (by norm_num) (by norm_num)
      (by norm_num) (by norm_num)).2.1.2⟩

/-- Claim C7: `saveOldDarkenFactors(remaining)` snapshots, for the entry
at index `i`, the pre-shift brightness
`1 - (stackSize - i) * stackDarkenPerLayer` with
`stackSize = min(maxStackCards, remaining - 1)`, for every stack state. -/
theorem saveOldDarkenFactors_spec (cfg : Config) (remaining : Int)
    (cs : CardStack) (i : Nat) (hi : i < cs.textures.length) :
    ((cs.saveOldDarkenFactors cfg remaining).oldDarkenFactors).length
        = cs.textures.length
    ∧ ((cs.saveOldDarkenFactors cfg remaining).oldDarkenFactors)[i]?
      = some (some (1 - ((min cfg.maxStackCards (remaining - 1) - (i : Int) : Int) : ℚ)
          * cfg.stackDarkenPerLayer)) := by
  have hbody : (cs.saveOldDarkenFactors cfg remaining).oldDarkenFactors
      = cs.textures.mapIdx fun k _ =>
          some (1 - ((min cfg.maxStackCards (remaining - 1) - (k : Int) : Int) : ℚ)
            * cfg.stackDarkenPerLayer) := rfl
  have hlen : ((cs.saveOldDarkenFactors cfg remaining).oldDarkenFactors).length
      = cs.textures.length := by
    rw [hbody]; exact List.length_mapIdx
  refine ⟨hlen, ?_⟩
  rw [hbody, List.getElem?_mapIdx, List.getElem?_eq_getElem hi]
  rfl

/-- Concrete instance of C7: a three-card stack with six cards remaining,
middle entry. -/
theorem saveOldDarkenFactors_spec_witness :
    (1 < csThree.textures.length)
    ∧ ((csThree.saveOldDarkenFactors CONFIG 6).oldDarkenFactors)[1]?
      = some (some (1 - ((min CONFIG.maxStackCards (6 - 1) - (1 : Int) : Int) : ℚ)
          * CONFIG.stackDarkenPerLayer)) :=
  ⟨by decide, (saveOldDarkenFactors_spec CONFIG 6 csThree 1 (by decide)).2⟩

/-- Claim C8: with `remaining ≤ maxStackCards`, the stack card at index
`i` renders at opacity `0` exactly when its position `stackSize - i` is
within one of the deck's true end (`≥ remaining - 1`), and at opacity `1`
otherwise; in particular with `remaining = 2` and `maxStackCards = 5` the
sole stack card renders at opacity `0`. -/
theorem phantom_card_suppression (cfg : Config) (remaining stackSize index : Int)
    (h : remaining ≤ cfg.maxStackCards) :
    ((stackSize - index ≥ remaining - 1 →
        renderStackCardOpacity cfg remaining stackSize index = 0)
      ∧ (stackSize - index < remaining - 1 →
        renderStackCardOpacity cfg remaining stackSize index = 1))
    ∧ renderStackCardOpacity CONFIG 2 (renderStackSize CONFIG 2) 0 = 0 := by
  refine ⟨⟨?_, ?_⟩, by decide⟩
  · intro hpos
    unfold renderStackCardOpacity
    rw [if_pos h, if_pos hpos]
  · intro hlt
    unfold renderStackCardOpacity
    rw [if_pos h, if_neg (by omega)]

/-- Concrete instance of C8: two cards remain, the sole stack card is
fully transparent. -/
theorem phantom_card_suppression_witness :
    ((2:Int) ≤ CONFIG.maxStackCards)
    ∧ renderStackCardOpacity CONFIG 2 (renderStackSize CONFIG 2) 0 = 0 :=
  ⟨by decide,
   (phantom_card_suppression CONFIG 2 (renderStackSize CONFIG 2) 0 (by decide)).2⟩
